import Mathlib

/-!
Verification of the deployer service: the agent registry (config.ts), the
webhook/manual-trigger dispatch logic (index.ts), the worker's deployment
routine with workspace cleanup (worker.ts), and the queue-side job lifecycle
(retry/backoff bookkeeping applied by the queue library, modelled from the
spec since the library is not part of this repository's sources).
-/

namespace Deployer

/-- Agent registry entry, from `config.ts` (`agents` array element shape). -/
structure Agent where
  name : String
  repo : String
  vercelProjectId : String
  autoDeploy : Bool
  branches : List String
deriving DecidableEq, Repr

/-- The static agent registry from `config.ts`. -/
def agents : List Agent :=
  [ ⟨"edna", "edna-ghl-agent", "", true, ["main"]⟩,
    ⟨"mabel", "mabel-lead-agent", "", true, ["main"]⟩,
    ⟨"otis", "otis-seo-agent", "", true, ["main"]⟩,
    ⟨"harold", "harold-finance-agent", "", true, ["main"]⟩ ]

/-- JavaScript `a || d` for a possibly-absent string `a`: yields the default
when the value is absent (`undefined`) or the empty string (both falsy). -/
def jsOrStr (v : Option String) (d : String) : String :=
  match v with
  | none => d
  | some s => if s = "" then d else s

/-- Replace the first occurrence of `pat` in a character list by `repl`,
scanning left to right. -/
def replaceFirstChars (pat repl : List Char) : List Char → List Char
  | [] => if pat.isPrefixOf ([] : List Char) then repl else []
  | c :: rest =>
    if pat.isPrefixOf (c :: rest) then repl ++ (c :: rest).drop pat.length
    else c :: replaceFirstChars pat repl rest

/-- JavaScript `s.replace(pat, repl)` with a string pattern: replaces only the
FIRST occurrence of `pat` (used for `ref.replace('refs/heads/', '')`). -/
def jsReplaceFirst (s pat repl : String) : String :=
  ⟨replaceFirstChars pat.data repl.data s.data⟩

/-- Job lifecycle states.  Modelled from the spec: the queue library that
keeps per-job state is not part of this repository's sources; §4.2 gives the
states Waiting, Active, Completed, Failed, DelayedRetry. -/
inductive JState where
  | waiting
  | active
  | delayedRetry
  | completed
  | failed
deriving DecidableEq, Repr

/-- Successful deployment outcome returned by `deployAgent` in `worker.ts`. -/
structure DeployResult where
  url : String
  deploymentId : String
deriving DecidableEq, Repr

/-- Per-job mutable bookkeeping held by the durable queue.  Modelled from the
spec (§3, §4.1, §4.2): the queue library is not in this repository's sources.
`pendingDelay` records the backoff delay (ms) set when entering DelayedRetry. -/
structure Job where
  state : JState
  attemptsMade : Nat
  failedCount : Nat
  returnvalue : Option DeployResult
  failedReason : Option String
  pendingDelay : Option Nat
deriving DecidableEq, Repr

/-- A freshly enqueued job: state Waiting, no attempts yet (spec §4.3 step 4). -/
def initJob : Job :=
  { state := .waiting, attemptsMade := 0, failedCount := 0,
    returnvalue := none, failedReason := none, pendingDelay := none }

/-- Per-job queue options, as passed at both `deployQueue.add` call sites in
`index.ts`: `attempts` and the exponential-backoff base `delay` (ms). -/
structure JobOpts where
  attempts : Nat
  backoffDelay : Nat
deriving DecidableEq, Repr

/-- The options both enqueue sites pass: `{ attempts: 3, backoff: { type:
'exponential', delay: 5000 } }` (`index.ts` lines 79-85 and 115-121). -/
def deployJobOpts : JobOpts := { attempts := 3, backoffDelay := 5000 }

/-- Queue-side lifecycle events for one job.  Modelled from the spec (§4.1,
§4.2, §7): claim by a worker, success/failure acknowledgement, expiry of a
claim's visibility timeout without acknowledgement (worker crash, §4.2 row
5), and backoff elapsing. -/
inductive QEvent where
  | claimJob
  | succeed (r : DeployResult)
  | fail (reason : String)
  | timeoutExpire
  | delayElapsed
deriving DecidableEq, Repr

/-- One lifecycle transition.  Modelled from the spec (§4.1 retry policy, the
§4.2 transition table and §7 claim-loss): a claim moves Waiting to Active and
increments `attemptsMade`, and is granted only while the budget of
`opts.attempts` total attempts remains (§4.1 "maximum 3 total attempts per
job"); success completes; failure with attempts remaining enters DelayedRetry
with backoff `delay * 2 ^ (attemptsMade - 1)`, otherwise Failed; an expired
claim-visibility timeout silently returns an Active job to Waiting, its
attempt spent (§4.2 row 5, §7: the reclaim is a fresh attempt counted against
the same `attemptsMade` budget); an elapsed backoff delay returns the job to
Waiting.  Events that do not apply in the current state leave the job
unchanged. -/
def step (opts : JobOpts) (j : Job) (e : QEvent) : Job :=
  match j.state, e with
  | .waiting, .claimJob =>
      if j.attemptsMade < opts.attempts then
        { j with state := .active, attemptsMade := j.attemptsMade + 1 }
      else j
  | .active, .succeed r =>
      { j with state := .completed, returnvalue := some r }
  | .active, .fail reason =>
      if j.attemptsMade < opts.attempts then
        { j with state := .delayedRetry, failedCount := j.failedCount + 1,
                 failedReason := some reason,
                 pendingDelay := some (opts.backoffDelay * 2 ^ (j.attemptsMade - 1)) }
      else
        { j with state := .failed, failedCount := j.failedCount + 1,
                 failedReason := some reason, pendingDelay := none }
  | .active, .timeoutExpire =>
      { j with state := .waiting }
  | .delayedRetry, .delayElapsed =>
      { j with state := .waiting, pendingDelay := none }
  | _, _ => j

/-- Run a job's lifecycle from creation through a sequence of queue events. -/
def runEvents (opts : JobOpts) (evs : List QEvent) : Job :=
  evs.foldl (step opts) initJob

/-- Invariant of the job lifecycle under the repository's options
(3 attempts): attempt counter bounded by the budget, failure and result
bookkeeping consistent.  Because a claim-visibility timeout (spec §4.2 row 5)
spends an attempt without recording an executor failure, `failedCount` is
only bounded by `attemptsMade`, not equal to it. -/
def jobInv (j : Job) : Prop :=
  j.attemptsMade ≤ 3 ∧
  j.failedCount ≤ j.attemptsMade ∧
  (j.state = .waiting → j.returnvalue = none) ∧
  (j.state = .delayedRetry →
    1 ≤ j.attemptsMade ∧ j.attemptsMade ≤ 2 ∧
    j.returnvalue = none ∧ j.failedReason.isSome = true) ∧
  (j.state = .active →
    1 ≤ j.attemptsMade ∧ j.failedCount < j.attemptsMade ∧ j.returnvalue = none) ∧
  (j.state = .completed → j.returnvalue.isSome = true) ∧
  (j.state = .failed →
    j.attemptsMade = 3 ∧ 1 ≤ j.failedCount ∧ j.returnvalue = none ∧
    j.failedReason.isSome = true)

/-- Job payload built by the dispatch handlers in `index.ts`.  The push path
sets `commit`/`commitMessage` and no `manual` flag; the manual path sets
`manual: true` and omits the commit fields (optional in `DeployJob`). -/
structure JobData where
  agent : String
  repo : String
  branch : String
  commit : Option String
  commitMessage : Option String
  manual : Bool
deriving DecidableEq, Repr

/-- A record stored in the `deployments` queue: queue-assigned id, the payload
passed to `deployQueue.add`, the options, and the lifecycle bookkeeping. -/
structure QueuedJob where
  id : Nat
  data : JobData
  opts : JobOpts
  job : Job
deriving DecidableEq, Repr

/-- The state of the `deployments` queue. -/
abbrev QueueState := List QueuedJob

/-- `deployQueue.add`: appends a new job record in state Waiting with a fresh
queue-assigned id.  Modelled from the spec (§4.1 `enqueue(job) -> jobId`,
§4.3 step 4): the queue library is not in this repository's sources. -/
def enqueue (q : QueueState) (data : JobData) (opts : JobOpts) : Nat × QueueState :=
  (q.length, q ++ [⟨q.length, data, opts, initJob⟩])

/-- A commit entry of a GitHub push payload (`commits` array element). -/
structure Commit where
  id : String
  message : String
deriving DecidableEq, Repr

/-- The parts of a GitHub push payload read by the webhook handler:
`ref`, `repository.name` and `commits`. -/
structure PushPayload where
  ref : String
  repoName : String
  commits : List Commit
deriving DecidableEq, Repr

/-- Response of the push branch of `app.post('/webhook/github')`:
either `res.status(200).json({ ignored: true, reason })` or
`res.json({ queued: true, jobId, agent, branch })`. -/
inductive PushResult where
  | ignoredResp (reason : String)
  | queuedResp (jobId : Nat) (agent : String) (branch : String)
deriving DecidableEq, Repr

/-- HTTP status of a push-branch response: rejections use an explicit
`res.status(200)`, the queued response uses `res.json` (default 200). -/
def pushStatus : PushResult → Nat
  | .ignoredResp _ => 200
  | .queuedResp _ _ _ => 200

/-- Whether a push-branch response body carries an `error` field: neither
response shape in the push branch does. -/
def pushIsError : PushResult → Bool
  | .ignoredResp _ => false
  | .queuedResp _ _ _ => false

/-- The dispatcher logic of the push branch of `app.post('/webhook/github')`
(`index.ts` lines 46-94): strip `refs/heads/`, look up the agent by repo,
check `branches`, check `autoDeploy`, then enqueue with attempts 3 and
exponential backoff delay 5000. -/
def handlePush (registry : List Agent) (p : PushPayload) (q : QueueState) :
    PushResult × QueueState :=
  let branch := jsReplaceFirst p.ref "refs/heads/" ""
  let repoName := p.repoName
  match registry.find? (fun a => a.repo == repoName) with
  | none => (.ignoredResp "unknown repo", q)
  | some agent =>
    if !(agent.branches.contains branch) then
      (.ignoredResp "branch not configured", q)
    else if !agent.autoDeploy then
      (.ignoredResp "auto-deploy disabled", q)
    else
      let data : JobData :=
        { agent := agent.name, repo := repoName, branch := branch,
          commit := some (jsOrStr (p.commits.head?.map Commit.id) "unknown"),
          commitMessage := some (jsOrStr (p.commits.head?.map Commit.message) ""),
          manual := false }
      let r := enqueue q data { attempts := 3, backoffDelay := 5000 }
      (.queuedResp r.1 agent.name branch, r.2)

/-- Request body of the manual trigger `app.post('/deploy/:agent')`: the
`branch` field may be absent. -/
structure ManualBody where
  branch : Option String
deriving DecidableEq, Repr

/-- Response of `app.post('/deploy/:agent')`: either
`res.status(404).json({ error: 'Agent not found' })` or
`res.json({ queued: true, jobId, agent })`. -/
inductive ManualResult where
  | notFoundResp
  | queuedResp (jobId : Nat) (agent : String)
deriving DecidableEq, Repr

/-- HTTP status of a manual-trigger response. -/
def manualStatus : ManualResult → Nat
  | .notFoundResp => 404
  | .queuedResp _ _ => 200

/-- Whether a manual-trigger response body carries an `error` field:
the not-found response does (`{ error: 'Agent not found' }`). -/
def manualIsError : ManualResult → Bool
  | .notFoundResp => true
  | .queuedResp _ _ => false

/-- The manual deploy trigger `app.post('/deploy/:agent')` (`index.ts` lines
101-130): look up the agent by name; 404 if absent; otherwise enqueue with
`branch: req.body.branch || 'main'`, `manual: true`, attempts 3, backoff 5000.
No branch or auto-deploy check is performed. -/
def handleManualDeploy (registry : List Agent) (agentName : String)
    (body : ManualBody) (q : QueueState) : ManualResult × QueueState :=
  match registry.find? (fun a => a.name == agentName) with
  | none => (.notFoundResp, q)
  | some agent =>
    let data : JobData :=
      { agent := agent.name, repo := agent.repo,
        branch := jsOrStr body.branch "main",
        commit := none, commitMessage := none, manual := true }
    let r := enqueue q data { attempts := 3, backoffDelay := 5000 }
    (.queuedResp r.1 agent.name, r.2)

/-- `crypto.timingSafeEqual(Buffer.from(a), Buffer.from(b))` on UTF-8 string
buffers: throws a `RangeError` when the byte lengths differ, otherwise
reports byte-for-byte equality (equivalent to string equality). -/
def timingSafeEqual (a b : String) : Except String Bool :=
  if a.utf8ByteSize = b.utf8ByteSize then .ok (a == b)
  else .error "RangeError: Input buffers must have the same byte length"

/-- `verifySignature` from `index.ts` lines 18-22, parametrised by the
hex-encoded HMAC-SHA256 function (from the `crypto` library, external to this
repository): compares the header value against `'sha256=' + digest` with
`timingSafeEqual`, which throws on differing byte lengths. -/
def verifySignature (hmacHex : String → String → String)
    (payload signature secret : String) : Except String Bool :=
  let digest := "sha256=" ++ hmacHex secret payload
  timingSafeEqual signature digest

/-- The parts of the webhook request read by `app.post('/webhook/github')`:
the two headers (possibly absent) and the body, both as the raw string
`JSON.stringify(req.body)` fed to HMAC and as the parsed push payload. -/
structure WebhookRequest where
  sigHeader : Option String
  eventHeader : Option String
  rawBody : String
  pushBody : PushPayload
deriving Repr

/-- Response of `app.post('/webhook/github')`: the 401 invalid-signature
rejection, the pass-through acknowledgement of non-push events, or a push
result. -/
inductive WebhookResult where
  | invalidSigResp
  | nonPushResp (event : Option String)
  | pushResp (r : PushResult)
deriving DecidableEq, Repr

/-- `app.post('/webhook/github')` (`index.ts` lines 35-98): reads the
signature header (`Buffer.from(undefined)` throws a `TypeError` when it is
absent), verifies it (`timingSafeEqual` throws on length mismatch), answers
401 on a failed comparison, and otherwise dispatches push events.  A thrown
error escapes the handler instead of producing a response. -/
def webhookGithub (hmacHex : String → String → String) (secret : String)
    (registry : List Agent) (req : WebhookRequest) (q : QueueState) :
    Except String (WebhookResult × QueueState) :=
  match req.sigHeader with
  | none => .error "TypeError: first argument must be a string or Buffer, received undefined"
  | some signature =>
    match verifySignature hmacHex req.rawBody signature secret with
    | .error e => .error e
    | .ok false => .ok (.invalidSigResp, q)
    | .ok true =>
      if req.eventHeader = some "push" then
        let r := handlePush registry req.pushBody q
        .ok (.pushResp r.1, r.2)
      else
        .ok (.nonPushResp req.eventHeader, q)

/-- Condition on a webhook request under which the claim C10 speaks: the
signature header is absent, or its byte length differs from that of the
expected `'sha256=' + digest` string. -/
def sigLengthMismatch (hmacHex : String → String → String) (secret : String)
    (req : WebhookRequest) : Bool :=
  match req.sigHeader with
  | none => true
  | some s => s.utf8ByteSize != ("sha256=" ++ hmacHex secret req.rawBody).utf8ByteSize

/-- Whether a webhook outcome is a thrown exception (no HTTP response). -/
def isExn {α : Type} : Except String α → Bool
  | .error _ => true
  | .ok _ => false

/-- Whether a webhook outcome is the 401 invalid-signature response. -/
def produced401 : Except String (WebhookResult × QueueState) → Bool
  | .ok (.invalidSigResp, _) => true
  | _ => false

/-- Response body of `app.get('/deploy/:jobId/status')` for a found job
(`index.ts` lines 142-149): id, state, data, returnvalue, failedReason and
attemptsMade of the job. -/
structure StatusBody where
  id : Nat
  state : JState
  data : JobData
  result : Option DeployResult
  failedReason : Option String
  attemptsMade : Nat
deriving DecidableEq, Repr

/-- Response of `app.get('/deploy/:jobId/status')`: 404 `{ error: 'Job not
found' }` for an unknown id, otherwise the status body. -/
inductive StatusResult where
  | jobNotFoundResp
  | okResp (body : StatusBody)
deriving DecidableEq, Repr

/-- `app.get('/deploy/:jobId/status')` (`index.ts` lines 133-150): look the
job up in the queue; 404 if unknown; otherwise project its current fields. -/
def getJobStatus (q : QueueState) (jobId : Nat) : StatusResult :=
  match q.find? (fun qj => qj.id == jobId) with
  | none => .jobNotFoundResp
  | some qj =>
    .okResp { id := qj.id, state := qj.job.state, data := qj.data,
              result := qj.job.returnvalue, failedReason := qj.job.failedReason,
              attemptsMade := qj.job.attemptsMade }

/-- Environment of one worker attempt in `worker.ts`: the fresh directory
name `fs.mkdtemp` returns, the outcome of `git clone`, whether `vercel.json`
already exists, the vercel CLI outcome (stdout or a failure), `Date.now()`. -/
structure DeployEnv where
  tmpDir : String
  cloneOk : Bool
  vercelJsonExists : Bool
  vercelOutcome : Except String String
  nowMs : Nat
deriving Repr

/-- The set of existing workspace directories. -/
abbrev FS := List String

/-- `fs.mkdtemp`: the fresh directory now exists. -/
def fsCreate (fs : FS) (d : String) : FS := d :: fs

/-- `fs.rm(dir, { recursive: true, force: true })`: the directory no longer
exists (no error if it was already absent). -/
def fsRemove (fs : FS) (d : String) : FS := fs.filter (fun x => x != d)

/-- The body of the `try` block of `deployAgent` in `worker.ts`: clone the
repository (throws on failure), ensure `vercel.json` exists (creating the
default otherwise — no failure path), run the vercel CLI (throws on failure),
and build the result from the last stdout line and `Date.now()`. -/
def deployBody (env : DeployEnv) : Except String DeployResult :=
  if !env.cloneOk then .error "git clone failed"
  else
    match env.vercelOutcome with
    | .error e => .error e
    | .ok stdout =>
      .ok { url := jsOrStr (stdout.trim.splitOn "\n").getLast? "",
            deploymentId := "deploy-" ++ toString env.nowMs }

/-- `deployAgent` from `worker.ts` lines 24-85: create the workspace with
`fs.mkdtemp`, run the try-block body, and in the `finally` clause remove the
workspace before returning, whatever the body's outcome was. -/
def deployAgent (env : DeployEnv) (fs : FS) : Except String DeployResult × FS :=
  let fs1 := fsCreate fs env.tmpDir
  let r := deployBody env
  (r, fsRemove fs1 env.tmpDir)

/-- Whether a push response is a dispatcher rejection (an `ignored` body). -/
def isRejection : PushResult → Bool
  | .ignoredResp _ => true
  | .queuedResp _ _ _ => false

/-- A lifecycle trace in which all three attempts fail. -/
def failTrace : List QEvent :=
  [.claimJob, .fail "a", .delayElapsed, .claimJob, .fail "b", .delayElapsed,
   .claimJob, .fail "c"]

/-- A lifecycle trace in which two claims are lost to visibility timeouts
and the third attempt fails. -/
def claimLossTrace : List QEvent :=
  [.claimJob, .timeoutExpire, .claimJob, .timeoutExpire, .claimJob,
   .fail "boom"]

/-- A lifecycle trace that succeeds on the first attempt. -/
def completedTrace : List QEvent :=
  [.claimJob, .succeed ⟨"https://u.example", "deploy-1"⟩]

/- ------------------------------------------------------------------ -/
/- Theorems                                                           -/
/- ------------------------------------------------------------------ -/

/-- The lifecycle invariant is preserved by every queue event under the
repository's job options (3 attempts, base delay 5000). -/
theorem step_preserves_inv (j : Job) (e : QEvent) (h : jobInv j) :
    jobInv (step deployJobOpts j e) := by
  obtain ⟨h1, h2, h3, h4, h5, h6, h7⟩ := h
  cases hs : j.state <;> cases e <;>
    simp_all [step, jobInv, deployJobOpts] <;>
    (try split) <;> simp_all <;> omega

/-- The lifecycle invariant is preserved by any sequence of queue events. -/
theorem foldl_preserves_inv (evs : List QEvent) (j : Job) (h : jobInv j) :
    jobInv (evs.foldl (step deployJobOpts) j) := by
  induction evs generalizing j with
  | nil => exact h
  | cons e evs ih => exact ih _ (step_preserves_inv j e h)

/-- A freshly enqueued job satisfies the lifecycle invariant. -/
theorem initJob_inv : jobInv initJob := by
  simp [jobInv, initJob]

/-- Every reachable job state satisfies the lifecycle invariant. -/
theorem runEvents_inv (evs : List QEvent) :
    jobInv (runEvents deployJobOpts evs) :=
  foldl_preserves_inv evs initJob initJob_inv

/-- A Failed job is unaffected by any further queue event. -/
theorem step_of_failed (j : Job) (e : QEvent) (h : j.state = .failed) :
    step deployJobOpts j e = j := by
  cases e <;> simp [step, h]

/-- A Failed job is unaffected by any further sequence of queue events. -/
theorem foldl_of_failed (evs : List QEvent) (j : Job) (h : j.state = .failed) :
    evs.foldl (step deployJobOpts) j = j := by
  induction evs with
  | nil => rfl
  | cons e evs ih => rw [List.foldl_cons, step_of_failed j e h]; exact ih

/-- Claim C2: for every job whose attempt fails while attempts remain, the
delay before the job becomes claimable again equals
`5000ms * 2 ^ (attemptsMade - 1)`: exactly 5000ms before the 2nd attempt
(first failure, `attemptsMade = 1`) and 10000ms before the 3rd attempt
(second failure, `attemptsMade = 2`). -/
theorem c2_backoff_delay (j : Job) (reason : String)
    (h1 : j.state = .active) (h2 : 1 ≤ j.attemptsMade) (h3 : j.attemptsMade < 3) :
    (step deployJobOpts j (.fail reason)).state = .delayedRetry ∧
    (step deployJobOpts j (.fail reason)).pendingDelay
      = some (5000 * 2 ^ (j.attemptsMade - 1)) ∧
    (j.attemptsMade = 1 →
      (step deployJobOpts j (.fail reason)).pendingDelay = some 5000) ∧
    (j.attemptsMade = 2 →
      (step deployJobOpts j (.fail reason)).pendingDelay = some 10000) := by
  refine ⟨?_, ?_, ?_, ?_⟩ <;>
    simp [step, h1, deployJobOpts, h3]
  · intro ha; rw [ha]; norm_num
  · intro ha; rw [ha]; norm_num

/-- Witness for C2: after the first failed attempt of a concrete job the
backoff delay is 5000ms. -/
theorem c2_backoff_delay_witness :
    (step deployJobOpts (runEvents deployJobOpts [QEvent.claimJob])
        (.fail "boom")).pendingDelay = some 5000 :=
  (c2_backoff_delay (runEvents deployJobOpts [QEvent.claimJob]) "boom"
    (by decide) (by decide) (by decide)).2.2.1 (by decide)

/-- Counterexample to claim C3 as stated: the Failed state is NOT reached
only after exactly 3 failed attempts.  In the trace `claimLossTrace` two of
the three attempts are lost to claim-visibility timeouts (spec §4.2 row 5,
§7: counted against the `attemptsMade` budget) and only one executor failure
is recorded, yet the job ends Failed. -/
theorem c3_failed_attempts_counterexample :
    (runEvents deployJobOpts claimLossTrace).state = .failed ∧
    (runEvents deployJobOpts claimLossTrace).attemptsMade = 3 ∧
    (runEvents deployJobOpts claimLossTrace).failedCount = 1 := by
  decide

/-- Claim C3 (amended): for every job under the repository's queue options,
`attemptsMade` never exceeds 3; the Failed state is reached only once all 3
allowed attempts are spent without any success — `attemptsMade = 3`, no
result, and between 1 and 3 recorded executor failures (fewer than 3 exactly
when claim-visibility timeouts consumed attempts); and once Failed the job is
never reclaimed or retried again (every further event sequence leaves it
unchanged). -/
theorem c3_attempts_bounded (evs : List QEvent) :
    (runEvents deployJobOpts evs).attemptsMade ≤ 3 ∧
    ((runEvents deployJobOpts evs).state = .failed →
      (runEvents deployJobOpts evs).attemptsMade = 3 ∧
      1 ≤ (runEvents deployJobOpts evs).failedCount ∧
      (runEvents deployJobOpts evs).failedCount ≤ 3 ∧
      (runEvents deployJobOpts evs).returnvalue = none) ∧
    ((runEvents deployJobOpts evs).state = .failed →
      ∀ evs2 : List QEvent,
        runEvents deployJobOpts (evs ++ evs2) = runEvents deployJobOpts evs) := by
  have hinv := runEvents_inv evs
  obtain ⟨h1, h2, h3, h4, h5, h6, h7⟩ := hinv
  refine ⟨h1, fun hf => ⟨(h7 hf).1, (h7 hf).2.1, le_trans h2 h1, (h7 hf).2.2.1⟩,
    fun hf evs2 => ?_⟩
  unfold runEvents
  rw [List.foldl_append]
  exact foldl_of_failed evs2 _ hf

/-- Witness for the amended C3: a concrete three-failure trace ends Failed
with exactly 3 attempts, between 1 and 3 recorded failures and no result,
and a further claim event does not change the job. -/
theorem c3_attempts_bounded_witness :
    (runEvents deployJobOpts failTrace).attemptsMade = 3 ∧
    1 ≤ (runEvents deployJobOpts failTrace).failedCount ∧
    (runEvents deployJobOpts failTrace).returnvalue = none ∧
    runEvents deployJobOpts (failTrace ++ [QEvent.claimJob])
      = runEvents deployJobOpts failTrace :=
  ⟨((c3_attempts_bounded failTrace).2.1 (by decide)).1,
   ((c3_attempts_bounded failTrace).2.1 (by decide)).2.1,
   ((c3_attempts_bounded failTrace).2.1 (by decide)).2.2.2,
   (c3_attempts_bounded failTrace).2.2 (by decide) [QEvent.claimJob]⟩

/-- Claim C1: for every push trigger with repository name R and branch B, the
dispatcher applies its checks in order, short-circuiting on the first that
fails: no agent with sourceRepo R → "unknown agent" (code reason `unknown
repo`), nothing enqueued; B not in the matched agent's allowedBranches →
"branch not eligible" (code reason `branch not configured`), nothing
enqueued; `autoDeploy` false → "auto-deploy disabled", nothing enqueued;
otherwise exactly one job record is appended, with `attemptsMade = 0` and
state Waiting. -/
theorem c1_push_dispatch_order (registry : List Agent) (p : PushPayload)
    (q : QueueState) :
    (registry.find? (fun x => x.repo == p.repoName) = none →
      handlePush registry p q = (.ignoredResp "unknown repo", q)) ∧
    (∀ a : Agent, registry.find? (fun x => x.repo == p.repoName) = some a →
      (a.branches.contains (jsReplaceFirst p.ref "refs/heads/" "") = false →
        handlePush registry p q = (.ignoredResp "branch not configured", q)) ∧
      (a.branches.contains (jsReplaceFirst p.ref "refs/heads/" "") = true →
        a.autoDeploy = false →
        handlePush registry p q = (.ignoredResp "auto-deploy disabled", q)) ∧
      (a.branches.contains (jsReplaceFirst p.ref "refs/heads/" "") = true →
        a.autoDeploy = true →
        handlePush registry p q =
          (.queuedResp q.length a.name (jsReplaceFirst p.ref "refs/heads/" ""),
           q ++ [⟨q.length,
                  ⟨a.name, p.repoName, jsReplaceFirst p.ref "refs/heads/" "",
                   some (jsOrStr (p.commits.head?.map Commit.id) "unknown"),
                   some (jsOrStr (p.commits.head?.map Commit.message) ""),
                   false⟩,
                  deployJobOpts, initJob⟩]) ∧
        initJob.attemptsMade = 0 ∧ initJob.state = .waiting)) := by
  constructor
  · intro hnone
    simp [handlePush, hnone]
  · intro a ha
    refine ⟨?_, ?_, ?_⟩
    · intro hb
      have hb2 : jsReplaceFirst p.ref "refs/heads/" "" ∉ a.branches := by
        simpa using hb
      simp [handlePush, ha, hb2]
    · intro hb hd
      have hb2 : jsReplaceFirst p.ref "refs/heads/" "" ∈ a.branches := by
        simpa using hb
      simp [handlePush, ha, hb2, hd]
    · intro hb hd
      have hb2 : jsReplaceFirst p.ref "refs/heads/" "" ∈ a.branches := by
        simpa using hb
      refine ⟨?_, rfl, rfl⟩
      simp [handlePush, ha, hb2, hd, enqueue, deployJobOpts]

/-- Witness for C1: the eligible push for the registered agent `otis` on
branch `main` enqueues exactly one Waiting job record. -/
theorem c1_push_dispatch_order_witness :
    handlePush agents ⟨"refs/heads/main", "otis-seo-agent", [⟨"abc", "fix"⟩]⟩ [] =
      (.queuedResp 0 "otis" "main",
       [⟨0, ⟨"otis", "otis-seo-agent", "main", some "abc", some "fix", false⟩,
         deployJobOpts, initJob⟩]) ∧
    initJob.attemptsMade = 0 ∧ initJob.state = .waiting :=
  ((c1_push_dispatch_order agents
      ⟨"refs/heads/main", "otis-seo-agent", [⟨"abc", "fix"⟩]⟩ []).2
    ⟨"otis", "otis-seo-agent", "", true, ["main"]⟩ (by decide)).2.2
    (by decide) (by decide)

/-- Claim C7: for every manual trigger naming a registered agent, with any
explicit branch override, the dispatcher enqueues a job regardless of the
agent's `branches` set and regardless of its `autoDeploy` flag — the
hypotheses place no constraint on either field. -/
theorem c7_manual_bypass (registry : List Agent) (agentName : String)
    (body : ManualBody) (q : QueueState) (a : Agent)
    (h : registry.find? (fun x => x.name == agentName) = some a) :
    handleManualDeploy registry agentName body q =
      (.queuedResp q.length a.name,
       q ++ [⟨q.length,
              ⟨a.name, a.repo, jsOrStr body.branch "main", none, none, true⟩,
              deployJobOpts, initJob⟩]) := by
  simp [handleManualDeploy, h, enqueue, deployJobOpts]

/-- Witness for C7: a manual trigger for `harold` with branch override
`release` enqueues even though the registry entry has `autoDeploy = false`
and `branches = ["main"]`. -/
theorem c7_manual_bypass_witness :
    handleManualDeploy [⟨"harold", "harold-finance-agent", "", false, ["main"]⟩]
        "harold" ⟨some "release"⟩ [] =
      (.queuedResp 0 "harold",
       [⟨0, ⟨"harold", "harold-finance-agent", "release", none, none, true⟩,
         deployJobOpts, initJob⟩]) :=
  c7_manual_bypass [⟨"harold", "harold-finance-agent", "", false, ["main"]⟩]
    "harold" ⟨some "release"⟩ []
    ⟨"harold", "harold-finance-agent", "", false, ["main"]⟩ (by decide)

/-- Claim C9: for every manual trigger whose request body omits the branch
field, the enqueued job record's branch is exactly `main`, irrespective of
the agent's `branches` set (no hypothesis constrains it). -/
theorem c9_manual_default_branch (registry : List Agent) (agentName : String)
    (q : QueueState) (a : Agent)
    (h : registry.find? (fun x => x.name == agentName) = some a) :
    handleManualDeploy registry agentName ⟨none⟩ q =
      (.queuedResp q.length a.name,
       q ++ [⟨q.length, ⟨a.name, a.repo, "main", none, none, true⟩,
              deployJobOpts, initJob⟩]) := by
  simp [handleManualDeploy, h, enqueue, deployJobOpts, jsOrStr]

/-- Witness for C9: a manual trigger without a branch for an agent whose
`branches` set does not even contain `main` still enqueues branch `main`. -/
theorem c9_manual_default_branch_witness :
    handleManualDeploy [⟨"edna", "edna-ghl-agent", "", true, ["dev"]⟩]
        "edna" ⟨none⟩ [] =
      (.queuedResp 0 "edna",
       [⟨0, ⟨"edna", "edna-ghl-agent", "main", none, none, true⟩,
         deployJobOpts, initJob⟩]) :=
  c9_manual_default_branch [⟨"edna", "edna-ghl-agent", "", true, ["dev"]⟩]
    "edna" [] ⟨"edna", "edna-ghl-agent", "", true, ["dev"]⟩ (by decide)

/-- Counterexample to claim C6 as stated: the manual trigger's unknown-agent
rejection for agent name `ghost` is reported as a 404 response whose body
carries an `error` field — an error response, not a successful decision —
although nothing is enqueued. -/
theorem c6_rejection_counterexample :
    (handleManualDeploy agents "ghost" ⟨none⟩ []).1 = .notFoundResp ∧
    manualStatus (handleManualDeploy agents "ghost" ⟨none⟩ []).1 = 404 ∧
    manualIsError (handleManualDeploy agents "ghost" ⟨none⟩ []).1 = true ∧
    (handleManualDeploy agents "ghost" ⟨none⟩ []).2 = [] := by
  decide

/-- Claim C6 (amended): no dispatcher rejection ever causes an enqueue, and
push-style rejections (unknown agent, ineligible branch, auto-deploy
disabled) are reported as successful 200 decisions without an error field;
the manual trigger's unknown-agent rejection, however, is reported as a 404
error response (also without enqueueing). -/
theorem c6_amended_rejections (registry : List Agent) (p : PushPayload)
    (agentName : String) (body : ManualBody) (q : QueueState) :
    (∀ r : String, (handlePush registry p q).1 = .ignoredResp r →
      (handlePush registry p q).2 = q ∧
      pushStatus (handlePush registry p q).1 = 200 ∧
      pushIsError (handlePush registry p q).1 = false) ∧
    ((handleManualDeploy registry agentName body q).1 = .notFoundResp →
      (handleManualDeploy registry agentName body q).2 = q ∧
      manualStatus (handleManualDeploy registry agentName body q).1 = 404 ∧
      manualIsError (handleManualDeploy registry agentName body q).1 = true) := by
  constructor
  · intro r hr
    unfold handlePush at *
    cases hf : registry.find? (fun x => x.repo == p.repoName) with
    | none => simp [hf, pushStatus, pushIsError]
    | some a =>
      by_cases hb : jsReplaceFirst p.ref "refs/heads/" "" ∈ a.branches
      · by_cases hd : a.autoDeploy
        · simp [hf, hb, hd, enqueue] at hr
        · simp [hf, hb, hd, pushStatus, pushIsError]
      · simp [hf, hb, pushStatus, pushIsError]
  · intro hr
    unfold handleManualDeploy at *
    cases hf : registry.find? (fun x => x.name == agentName) with
    | none => simp [hf, manualStatus, manualIsError]
    | some a =>
      simp [hf, enqueue] at hr

/-- Witness for the amended C6: a push for an unregistered repository is
rejected with status 200 and no error field, leaving the queue unchanged. -/
theorem c6_amended_rejections_witness :
    (handlePush agents ⟨"refs/heads/main", "nope", []⟩ []).2 = [] ∧
    pushStatus (handlePush agents ⟨"refs/heads/main", "nope", []⟩ []).1 = 200 ∧
    pushIsError (handlePush agents ⟨"refs/heads/main", "nope", []⟩ []).1 = false :=
  (c6_amended_rejections agents ⟨"refs/heads/main", "nope", []⟩ "ghost" ⟨none⟩ []).1
    "unknown repo" (by decide)

/-- Claim C8: the dispatcher decision is idempotent on rejected push
triggers: a rejected trigger leaves the queue unchanged, and evaluating the
same trigger again on the resulting queue yields the identical outcome and
queue. -/
theorem c8_rejection_idempotent (registry : List Agent) (p : PushPayload)
    (q : QueueState)
    (h : isRejection (handlePush registry p q).1 = true) :
    (handlePush registry p q).2 = q ∧
    handlePush registry p ((handlePush registry p q).2)
      = handlePush registry p q := by
  unfold handlePush at *
  cases hf : registry.find? (fun x => x.repo == p.repoName) with
  | none => simp [hf]
  | some a =>
    by_cases hb : jsReplaceFirst p.ref "refs/heads/" "" ∈ a.branches
    · by_cases hd : a.autoDeploy
      · simp [hf, hb, hd, enqueue, isRejection] at h
      · simp [hf, hb, hd]
    · simp [hf, hb]

/-- Witness for C8: repeating the rejected push for an unregistered
repository returns the same outcome and the same (empty) queue. -/
theorem c8_rejection_idempotent_witness :
    (handlePush agents ⟨"refs/heads/main", "other-repo", []⟩ []).2 = [] ∧
    handlePush agents ⟨"refs/heads/main", "other-repo", []⟩
        ((handlePush agents ⟨"refs/heads/main", "other-repo", []⟩ []).2)
      = handlePush agents ⟨"refs/heads/main", "other-repo", []⟩ [] :=
  c8_rejection_idempotent agents ⟨"refs/heads/main", "other-repo", []⟩ []
    (by decide)

/-- Claim C5: for every status query with a job id, an unknown id yields the
not-found outcome; otherwise the response carries the job's id, state and
`attemptsMade`, its result when the state is Completed, and its
`failedReason` when the state is Failed or DelayedRetry (for any job whose
bookkeeping is reachable through the queue's lifecycle events). -/
theorem c5_status_query (q : QueueState) (jid : Nat) :
    (q.find? (fun qj => qj.id == jid) = none →
      getJobStatus q jid = .jobNotFoundResp) ∧
    (∀ (qj : QueuedJob) (evs : List QEvent),
      q.find? (fun x => x.id == jid) = some qj →
      qj.job = runEvents deployJobOpts evs →
      getJobStatus q jid =
        .okResp ⟨qj.id, qj.job.state, qj.data, qj.job.returnvalue,
                 qj.job.failedReason, qj.job.attemptsMade⟩ ∧
      (qj.job.state = .completed → qj.job.returnvalue.isSome = true) ∧
      ((qj.job.state = .failed ∨ qj.job.state = .delayedRetry) →
        qj.job.failedReason.isSome = true)) := by
  constructor
  · intro h
    simp [getJobStatus, h]
  · intro qj evs hf hr
    have hinv : jobInv qj.job := hr ▸ runEvents_inv evs
    obtain ⟨h1, h2, h3, h4, h5, h6, h7⟩ := hinv
    refine ⟨by simp [getJobStatus, hf], fun hc => h6 hc, ?_⟩
    rintro (hc | hc)
    · exact (h7 hc).2.2.2
    · exact (h4 hc).2.2.2

/-- Witness for C5: a queue holding one job completed through a concrete
lifecycle trace answers the status query with that job's fields and a present
result. -/
theorem c5_status_query_witness :
    getJobStatus
        [⟨0, ⟨"otis", "otis-seo-agent", "main", some "abc", some "", false⟩,
          deployJobOpts, runEvents deployJobOpts completedTrace⟩] 0 =
      .okResp ⟨0, (runEvents deployJobOpts completedTrace).state,
               ⟨"otis", "otis-seo-agent", "main", some "abc", some "", false⟩,
               (runEvents deployJobOpts completedTrace).returnvalue,
               (runEvents deployJobOpts completedTrace).failedReason,
               (runEvents deployJobOpts completedTrace).attemptsMade⟩ ∧
    (runEvents deployJobOpts completedTrace).returnvalue.isSome = true :=
  have h := (c5_status_query
      [⟨0, ⟨"otis", "otis-seo-agent", "main", some "abc", some "", false⟩,
        deployJobOpts, runEvents deployJobOpts completedTrace⟩] 0).2
    ⟨0, ⟨"otis", "otis-seo-agent", "main", some "abc", some "", false⟩,
      deployJobOpts, runEvents deployJobOpts completedTrace⟩
    completedTrace (by decide) rfl
  ⟨h.1, h.2.1 (by decide)⟩

/-- Claim C4: for every claimed job, the worker removes the attempt's freshly
created workspace directory before the attempt returns, on every exit path:
after a successful deploy, after a clone failure, and after a deployment
executor (vercel CLI) failure.  The filesystem ends exactly as it began. -/
theorem c4_workspace_cleanup (env : DeployEnv) (fs : FS)
    (hfresh : env.tmpDir ∉ fs) :
    (deployAgent env fs).2 = fs ∧
    env.tmpDir ∉ (deployAgent env fs).2 ∧
    (env.cloneOk = false →
      (deployAgent env fs).1 = .error "git clone failed") ∧
    (∀ e : String, env.cloneOk = true → env.vercelOutcome = .error e →
      (deployAgent env fs).1 = .error e) ∧
    (∀ out : String, env.cloneOk = true → env.vercelOutcome = .ok out →
      (deployAgent env fs).1 =
        .ok ⟨jsOrStr (out.trim.splitOn "\n").getLast? "",
             "deploy-" ++ toString env.nowMs⟩) := by
  have hclean : (deployAgent env fs).2 = fs := by
    have hstep : (deployAgent env fs).2 = fs.filter (fun x => x != env.tmpDir) := by
      simp [deployAgent, fsCreate, fsRemove, List.filter_cons]
    rw [hstep]
    refine List.filter_eq_self.mpr (fun a ha => ?_)
    simp only [bne_iff_ne, ne_eq]
    exact fun hEq => hfresh (hEq ▸ ha)
  refine ⟨hclean, by rw [hclean]; exact hfresh, ?_, ?_, ?_⟩
  · intro hc
    simp [deployAgent, deployBody, hc]
  · intro e hc hv
    simp [deployAgent, deployBody, hc, hv]
  · intro out hc hv
    simp [deployAgent, deployBody, hc, hv]

/-- Witness for C4: a concrete attempt whose clone fails still ends with the
workspace directory absent and reports the clone error. -/
theorem c4_workspace_cleanup_witness :
    (deployAgent ⟨"/tmp/deploy-otis-x1", false, true, .ok "", 7⟩ []).2 = [] ∧
    (deployAgent ⟨"/tmp/deploy-otis-x1", false, true, .ok "", 7⟩ []).1 =
      .error "git clone failed" :=
  have h := c4_workspace_cleanup ⟨"/tmp/deploy-otis-x1", false, true, .ok "", 7⟩
    [] (by simp)
  ⟨h.1, h.2.2.1 rfl⟩

/-- Claim C10: for every webhook request whose signature header is absent, or
whose header value's byte length differs from that of the expected
`sha256=` + hex digest string, signature verification throws an exception —
the handler yields an error, never the 401 invalid-signature response. -/
theorem c10_signature_throws (hmacHex : String → String → String)
    (secret : String) (registry : List Agent) (req : WebhookRequest)
    (q : QueueState)
    (h : sigLengthMismatch hmacHex secret req = true) :
    isExn (webhookGithub hmacHex secret registry req q) = true ∧
    produced401 (webhookGithub hmacHex secret registry req q) = false := by
  unfold sigLengthMismatch at h
  unfold webhookGithub
  cases hs : req.sigHeader with
  | none => simp [isExn, produced401]
  | some s =>
    rw [hs] at h
    have hne : ¬ (s.utf8ByteSize
        = ("sha256=" ++ hmacHex secret req.rawBody).utf8ByteSize) := by
      simpa using h
    simp [verifySignature, timingSafeEqual, hne, isExn, produced401]

/-- Witness for C10: a webhook request without the signature header makes the
handler throw rather than answer 401. -/
theorem c10_signature_throws_witness :
    isExn (webhookGithub (fun _ _ => "0") "s" agents
        ⟨none, some "push", "payload", ⟨"refs/heads/main", "otis-seo-agent", []⟩⟩
        []) = true ∧
    produced401 (webhookGithub (fun _ _ => "0") "s" agents
        ⟨none, some "push", "payload", ⟨"refs/heads/main", "otis-seo-agent", []⟩⟩
        []) = false :=
  c10_signature_throws (fun _ _ => "0") "s" agents
    ⟨none, some "push", "payload", ⟨"refs/heads/main", "otis-seo-agent", []⟩⟩
    [] rfl

end Deployer

